import Mathlib

/- Shallow embedding of the "Guess the Phrase" round controller and input
   recognizers, translated from the repository source (the app script embedded
   in README.md, and movement.js, which duplicates the swipe/tilt logic).

   Modelling conventions:
   - `State` (the app's global mutable object) becomes the `AppState` structure;
     functions become state transformers.
   - Wall-clock instants (`Date.now()`, milliseconds) are `Nat`; the clock is
     monotone and starts far above 700 in reality.  `Nat` subtraction truncates
     at 0 exactly where the JS code would see a negative difference, and every
     comparison below treats the two the same way.
   - Angles (`beta`) and pointer coordinates are `ℚ` (JS numbers at the exact
     values the claims mention; 0.12 is `12/100`).
   - DOM/presentation calls (showFeedback, renderCurrentPhrase, updateHUD,
     vibration, wake lock, fullscreen, status text) are omitted: they read
     state but never write the round/tilt/swipe state.  The rendered results
     screen is kept as the `results : Option Snapshot` field, because the spec
     treats it as the frozen results snapshot.
   - Deferred callbacks: `advance` schedules its end-of-deck branch and
     `endRound` its screen switch behind short `setTimeout`s.  Both are folded
     into the same transition (the semantics when no other event lands inside
     the window); the synchronous boundary branch of `advance` that an event
     inside the window would see is the missing-entry branch, which
     is modelled exactly as in the source.
   - Phrase-list parsing from raw text is an external collaborator; `startRound`
     here receives the parsed list and performs the source's emptiness check.
   - The Fisher-Yates shuffle draws from Math.random; the permutation actually
     used in a round is passed in as the `shuffle` argument. -/

namespace GuessPhrase

inductive Action
  | got
  | pass
  | next
deriving DecidableEq

inductive Mode
  | setup
  | running
  | finished
deriving DecidableEq

structure Item where
  phrase : String
  hint : String
deriving DecidableEq

/- The results screen rendered by renderResults: statTotal/statGot/statPass
   plus the reason line (which also shows deck.length). -/
structure Snapshot where
  shown : Nat
  got : Nat
  pass : Nat
  total : Nat
  reason : String
deriving DecidableEq

/- startRound's only surfaced failure: the alert on an empty parsed list. -/
inductive StartError
  | validationError
deriving DecidableEq

/- const TILT = { ... } tuning knobs. -/
structure TiltConfig where
  forwardTriggerDelta : ℚ
  backwardTriggerDelta : ℚ
  neutralZoneAbs : ℚ
  minIntervalMs : Nat
  baselineSmoothing : ℚ

def TILT : TiltConfig :=
  { forwardTriggerDelta := 18
    backwardTriggerDelta := -18
    neutralZoneAbs := 10
    minIntervalMs := 700
    baselineSmoothing := 12 / 100 }

/- const SWIPE thresholds. -/
def SWIPE_THRESHOLD_PX : ℚ := 42

def SWIPE_MAX_OFF_AXIS : ℚ := 80

def SWIPE_MAX_MS : Nat := 800

/- The app's `State` object plus the closure-held timer start instant and the
   module-level `Swipe` record. `timerOn` stands for `timerId !== null`. -/
structure AppState where
  mode : Mode
  phrasesOriginal : List Item
  deck : List Item
  index : Nat
  shown : Nat
  got : Nat
  pass : Nat
  timerSeconds : Nat
  timeLeft : Nat
  timerOn : Bool
  timerStartedAt : Nat
  shuffleOnStart : Bool
  loopWhenFinished : Bool
  tiltEnabled : Bool
  tiltPermissionGranted : Bool
  tiltListenerAttached : Bool
  tiltLastActionAt : Nat
  tiltArmed : Bool
  tiltNeutralBeta : ℚ
  tiltHasBaseline : Bool
  swipeActive : Bool
  swipeStartX : ℚ
  swipeStartY : ℚ
  swipeStartT : Nat
  results : Option Snapshot
deriving DecidableEq

/- setScreen(mode): the state-relevant effect is State.mode = mode. -/
def setScreen (m : Mode) (s : AppState) : AppState :=
  { s with mode := m }

/- stopTimer(): if (State.timerId) { clearInterval(...); State.timerId = null }. -/
def stopTimer (s : AppState) : AppState :=
  if s.timerOn then { s with timerOn := false } else s

/- startTimer(): stopTimer(); const startedAt = Date.now(); setInterval(...). -/
def startTimer (now : Nat) (s : AppState) : AppState :=
  let s1 := stopTimer s
  { s1 with timerOn := true, timerStartedAt := now }

/- disableTiltListener(): guarded removeEventListener. -/
def disableTiltListener (s : AppState) : AppState :=
  if s.tiltListenerAttached then { s with tiltListenerAttached := false } else s

/- attachTiltListener(): guarded addEventListener. -/
def attachTiltListener (s : AppState) : AppState :=
  if s.tiltListenerAttached then s else { s with tiltListenerAttached := true }

/- maybeEnableTiltDuringGame(), with the platform capability check
   isIOSNeedsMotionPermission() passed in as a boolean. -/
def maybeEnableTiltDuringGame (iosNeedsPermission : Bool) (s : AppState) : AppState :=
  if s.tiltEnabled = false then disableTiltListener s
  else if iosNeedsPermission = true ∧ s.tiltPermissionGranted = false then s
  else attachTiltListener s

/- renderResults(reason): freezes shown/got/pass, deck.length and the reason
   into the results screen. -/
def renderResults (reason : String) (s : AppState) : AppState :=
  { s with results := some ⟨s.shown, s.got, s.pass, s.deck.length, reason⟩ }

/- endRound(reason): stopTimer; releaseWakeLock (external); disableTiltListener;
   then, after the 250ms feedback delay, setScreen('finished') and
   renderResults(reason).  Note the source has no State.mode guard here. -/
def endRound (reason : String) (s : AppState) : AppState :=
  let s1 := disableTiltListener (stopTimer s)
  renderResults reason (setScreen Mode.finished s1)

/- advance(action): the mode guard, the boundary branch when deck[index] is
   undefined, the scoring increments, the index increment, and the captured
   atEnd check whose body runs after the 420ms feedback delay. -/
def advance (a : Action) (s : AppState) : AppState :=
  if s.mode ≠ Mode.running then s
  else
    match s.deck[s.index]? with
    | none =>
      if s.loopWhenFinished = true ∧ 0 < s.deck.length then { s with index := 0 }
      else endRound "Reached the end of the list" s
    | some _ =>
      let s1 := { s with
        shown := s.shown + 1,
        got := if a = Action.got then s.got + 1 else s.got,
        pass := if a = Action.pass then s.pass + 1 else s.pass }
      let s2 := { s1 with index := s1.index + 1 }
      let atEnd := s2.deck.length ≤ s2.index
      if atEnd then
        if s2.loopWhenFinished = true ∧ 0 < s2.deck.length then { s2 with index := 0 }
        else endRound "Reached the end of the list" s2
      else s2

/- buildDeck(phrases): copy (value semantics makes the per-object copy the
   identity) and optionally shuffle with the round's permutation. -/
def buildDeck (shuffle : List Item → List Item) (phrases : List Item) (s : AppState) :
    List Item :=
  if s.shuffleOnStart then shuffle phrases else phrases

/- startRound(): emptiness check on the parsed list (alert = ValidationError,
   plain return), then counter/tilt resets, setScreen('running'),
   maybeEnableTiltDuringGame, startTimer.  saveSettings, wake lock, orientation
   lock and rendering are external or presentation-only. -/
def startRound (shuffle : List Item → List Item) (iosNeedsPermission : Bool)
    (now : Nat) (phrases : List Item) (s : AppState) : AppState × Option StartError :=
  if phrases.length = 0 then (s, some StartError.validationError)
  else
    let s1 := { s with
      phrasesOriginal := phrases,
      deck := buildDeck shuffle phrases s,
      index := 0,
      shown := 0,
      got := 0,
      pass := 0,
      timeLeft := s.timerSeconds,
      tiltLastActionAt := 0,
      tiltArmed := true,
      tiltHasBaseline := false }
    let s2 := setScreen Mode.running s1
    let s3 := maybeEnableTiltDuringGame iosNeedsPermission s2
    (startTimer now s3, none)

/- The setInterval callback: recompute timeLeft from the wall clock and end the
   round at zero.  A cleared interval no longer fires, hence the timerOn guard.
   Nat subtraction on timerSeconds - elapsed is exactly Math.max(0, ...). -/
def timerTick (now : Nat) (s : AppState) : AppState :=
  if s.timerOn = false then s
  else
    let elapsed := (now - s.timerStartedAt) / 1000
    let s1 := { s with timeLeft := s.timerSeconds - elapsed }
    if s1.timeLeft = 0 then endRound "Time is up" s1 else s1

/- swipeStart(x, y): records the candidate gesture while running. -/
def swipeStart (x y : ℚ) (now : Nat) (s : AppState) : AppState :=
  if s.mode ≠ Mode.running then s
  else { s with swipeActive := true, swipeStartX := x, swipeStartY := y, swipeStartT := now }

/- swipeEnd(x, y): classification against the recorded start; returns the
   emitted action (which the source feeds straight into advance). -/
def swipeEnd (x y : ℚ) (now : Nat) (s : AppState) : AppState × Option Action :=
  if s.swipeActive = false ∨ s.mode ≠ Mode.running then (s, none)
  else
    let s1 := { s with swipeActive := false }
    let dx := x - s.swipeStartX
    let dy := y - s.swipeStartY
    let dt := now - s.swipeStartT
    let isQuickEnough := dt ≤ SWIPE_MAX_MS
    let isFarEnough := SWIPE_THRESHOLD_PX ≤ |dx|
    let isMostlyHorizontal := |dy| ≤ SWIPE_MAX_OFF_AXIS
    if isQuickEnough ∧ isFarEnough ∧ isMostlyHorizontal then
      if 0 < dx then (s1, some Action.got) else (s1, some Action.pass)
    else (s1, none)

/- calibrateBaseline(beta). -/
def calibrateBaseline (beta : ℚ) (s : AppState) : AppState :=
  if s.tiltHasBaseline = false then
    { s with tiltNeutralBeta := beta, tiltHasBaseline := true }
  else
    let delta := beta - s.tiltNeutralBeta
    if |delta| ≤ TILT.neutralZoneAbs + 4 then
      { s with tiltNeutralBeta := s.tiltNeutralBeta + delta * TILT.baselineSmoothing }
    else s

/- onDeviceOrientation(e): shouldListenTilt gate, missing-beta drop, calibration,
   arming latch, debounce, trigger.  Returns the emitted action (which the
   source feeds straight into advance). -/
def onDeviceOrientation (now : Nat) (betaEvent : Option ℚ) (s : AppState) :
    AppState × Option Action :=
  if ¬ (s.tiltEnabled = true ∧ s.mode = Mode.running) then (s, none)
  else
    match betaEvent with
    | none => (s, none)
    | some beta =>
      let s1 := calibrateBaseline beta s
      let delta := beta - s1.tiltNeutralBeta
      if s1.tiltArmed = false then
        if |delta| ≤ TILT.neutralZoneAbs then ({ s1 with tiltArmed := true }, none)
        else (s1, none)
      else if now - s1.tiltLastActionAt < TILT.minIntervalMs then (s1, none)
      else if TILT.forwardTriggerDelta ≤ delta then
        ({ s1 with tiltArmed := false, tiltLastActionAt := now }, some Action.got)
      else if delta ≤ TILT.backwardTriggerDelta then
        ({ s1 with tiltArmed := false, tiltLastActionAt := now }, some Action.pass)
      else (s1, none)

/- One orientation event as delivered: the recognizer runs and its emitted
   action is applied through advance, as in the source ('advance' is called
   from inside onDeviceOrientation). -/
def tiltEvent (now : Nat) (betaEvent : Option ℚ) (s : AppState) : AppState :=
  match onDeviceOrientation now betaEvent s with
  | (s1, some a) => advance a s1
  | (s1, none) => s1

/- Run a list of (time, beta) orientation samples, collecting the actions the
   recognizer emitted (each applied through advance as it happens). -/
def runTilt (samples : List (Nat × ℚ)) (s : AppState) : AppState × List Action :=
  match samples with
  | [] => (s, [])
  | (t, b) :: rest =>
    match onDeviceOrientation t (some b) s with
    | (s1, some a) =>
      let out := runTilt rest (advance a s1)
      (out.1, a :: out.2)
    | (s1, none) => runTilt rest s1

/- Any round-time event the app can deliver between two lifecycle calls. -/
inductive Ev
  | act (a : Action)
  | orientation (now : Nat) (betaEvent : Option ℚ)
  | touchDown (now : Nat) (x y : ℚ)
  | touchUp (now : Nat) (x y : ℚ)
  | tick (now : Nat)
  | endEv (reason : String)

def stepEv (s : AppState) (e : Ev) : AppState :=
  match e with
  | Ev.act a => advance a s
  | Ev.orientation t b => tiltEvent t b s
  | Ev.touchDown t x y => swipeStart x y t s
  | Ev.touchUp t x y =>
    match swipeEnd x y t s with
    | (s1, some a) => advance a s1
    | (s1, none) => s1
  | Ev.tick t => timerTick t s
  | Ev.endEv r => endRound r s

def runEvents (evs : List Ev) (s : AppState) : AppState :=
  evs.foldl stepEv s

/- Concrete states used to instantiate the theorems below. -/

def demoDeck : List Item :=
  [⟨"alpha", ""⟩, ⟨"bravo", ""⟩, ⟨"charlie", ""⟩]

/- A state as it looks right after startRound on demoDeck (no shuffle, no loop). -/
def runningState : AppState :=
  { mode := Mode.running
    phrasesOriginal := demoDeck
    deck := demoDeck
    index := 0
    shown := 0
    got := 0
    pass := 0
    timerSeconds := 60
    timeLeft := 60
    timerOn := true
    timerStartedAt := 0
    shuffleOnStart := false
    loopWhenFinished := false
    tiltEnabled := true
    tiltPermissionGranted := true
    tiltListenerAttached := true
    tiltLastActionAt := 0
    tiltArmed := true
    tiltNeutralBeta := 0
    tiltHasBaseline := false
    swipeActive := false
    swipeStartX := 0
    swipeStartY := 0
    swipeStartT := 0
    results := none }

/- A pre-round state: setup screen, nothing armed or attached. -/
def setupState : AppState :=
  { runningState with mode := Mode.setup, timerOn := false, tiltListenerAttached := false }

/- A running state caught inside the boundary window: the index is already past
the 3-item deck and looping is enabled. -/
def wrapState : AppState :=
  { runningState with index := 3, loopWhenFinished := true, shown := 2, got := 1, pass := 1 }

/- A running state whose timer is a 3-second countdown started at instant 0. -/
def timedState : AppState :=
  { runningState with timerSeconds := 3, timeLeft := 3, timerStartedAt := 0 }

/- A running state whose tilt baseline is already calibrated at 2 degrees. -/
def calibratedState : AppState :=
  { runningState with tiltHasBaseline := true, tiltNeutralBeta := 2 }

/- A running state with a swipe gesture in flight, started at (100, 200) at
time 1000ms. -/
def swipeActiveState : AppState :=
  { runningState with swipeActive := true, swipeStartX := 100, swipeStartY := 200,
                      swipeStartT := 1000 }

/- Numeric facts about the tilt tuning constants, used to discharge branch
conditions at a delta of exactly 0 (a sample at the current baseline). -/

theorem TILT_pos_delta_not_le_zero : ¬ (TILT.forwardTriggerDelta ≤ (0 : ℚ)) := by
  norm_num [TILT]

theorem TILT_neg_delta_not_le_zero : ¬ ((0 : ℚ) ≤ TILT.backwardTriggerDelta) := by
  norm_num [TILT]

theorem TILT_neutral_ok : (0 : ℚ) ≤ TILT.neutralZoneAbs := by
  norm_num [TILT]

theorem TILT_neutral4_ok : (0 : ℚ) ≤ TILT.neutralZoneAbs + 4 := by
  norm_num [TILT]

theorem TILT_smoothing : TILT.baselineSmoothing = 12 / 100 := rfl

/- stopTimer always leaves the timer off, in one record update. -/
theorem stopTimer_eq (s : AppState) : stopTimer s = { s with timerOn := false } := by
  cases s
  unfold stopTimer
  split_ifs <;> simp_all

/- startTimer in one record update. -/
theorem startTimer_eq (now : Nat) (s : AppState) :
    startTimer now s = { s with timerOn := true, timerStartedAt := now } := by
  unfold startTimer
  rw [stopTimer_eq]

/- maybeEnableTiltDuringGame only ever touches the listener-attached flag. -/
theorem maybeEnableTilt_proj (iosNeedsPermission : Bool) (s : AppState) :
    (maybeEnableTiltDuringGame iosNeedsPermission s).tiltHasBaseline =
        s.tiltHasBaseline ∧
      (maybeEnableTiltDuringGame iosNeedsPermission s).tiltArmed = s.tiltArmed ∧
      (maybeEnableTiltDuringGame iosNeedsPermission s).tiltLastActionAt =
        s.tiltLastActionAt ∧
      (maybeEnableTiltDuringGame iosNeedsPermission s).shown = s.shown ∧
      (maybeEnableTiltDuringGame iosNeedsPermission s).got = s.got ∧
      (maybeEnableTiltDuringGame iosNeedsPermission s).pass = s.pass ∧
      (maybeEnableTiltDuringGame iosNeedsPermission s).index = s.index := by
  unfold maybeEnableTiltDuringGame attachTiltListener disableTiltListener
  split_ifs <;> simp

/- What every endRound call does, in one record update. -/
theorem endRound_eq (reason : String) (s : AppState) :
    endRound reason s = { s with
      mode := Mode.finished
      timerOn := false
      tiltListenerAttached := false
      results := some ⟨s.shown, s.got, s.pass, s.deck.length, reason⟩ } := by
  unfold endRound stopTimer disableTiltListener setScreen renderResults
  split_ifs <;> simp_all

/-- C1 counterexample: the source's endRound has no mode guard, so from a Setup
state it is not a no-op: it transitions the state to Finished. -/
theorem endRound_outside_running_changes_mode :
    setupState.mode = Mode.setup ∧
      (endRound "Ended early" setupState).mode = Mode.finished := by
  exact ⟨rfl, rfl⟩

/-- C1 (amended): endRound performs its teardown and transition from every mode
(the source has no Running-only guard): it stops the timer, detaches the tilt
listener, sets the mode to Finished and freezes the snapshot from the current
counters and the given reason.  A second endRound immediately after a first with
the same reason has no additional effect (endRound is idempotent for a fixed
reason), but calling it outside Running is not a no-op. -/
theorem endRound_unguarded_idempotent (reason : String) (s : AppState) :
    (endRound reason s).mode = Mode.finished ∧
      endRound reason (endRound reason s) = endRound reason s := by
  rw [endRound_eq reason s, endRound_eq]
  exact ⟨rfl, rfl⟩

/-- C4 counterexample: a second swipeStart while a gesture is active is not
ignored: it overwrites the recorded start coordinates. -/
theorem swipeStart_second_overwrites :
    (swipeStart 0 0 100 runningState).swipeActive = true ∧
      (swipeStart 50 60 200 (swipeStart 0 0 100 runningState)).swipeStartX ≠
        (swipeStart 0 0 100 runningState).swipeStartX := by
  refine ⟨rfl, ?_⟩
  norm_num [swipeStart, runningState]

/-- C4 (amended): while the round is Running, a second swipeStart before the
matching swipeEnd overwrites the recorded start point and start time: the
candidate gesture restarts from the second start event (the source records
unconditionally, with no Swipe.active check). -/
theorem swipeStart_restart_semantics (s : AppState) (x y x2 y2 : ℚ) (t t2 : Nat)
    (hm : s.mode = Mode.running) :
    swipeStart x2 y2 t2 (swipeStart x y t s) =
      { s with swipeActive := true, swipeStartX := x2, swipeStartY := y2,
               swipeStartT := t2 } := by
  simp [swipeStart, hm]

/-- C4 witness for the amended theorem at concrete inputs. -/
theorem swipeStart_restart_semantics_witness :
    swipeStart 50 60 200 (swipeStart 0 0 100 runningState) =
      { runningState with swipeActive := true, swipeStartX := 50, swipeStartY := 60,
                          swipeStartT := 200 } :=
  swipeStart_restart_semantics runningState 0 0 50 60 100 200 rfl

/-- C8: startRound on an empty parsed phrase list reports the validation error
(the alert) to the caller and performs no state change at all; in particular the
mode is left as it was (Setup stays Setup). -/
theorem startRound_empty_validation (shuffle : List Item → List Item)
    (iosNeedsPermission : Bool) (now : Nat) (phrases : List Item) (s : AppState)
    (h : phrases.length = 0) :
    startRound shuffle iosNeedsPermission now phrases s =
      (s, some StartError.validationError) := by
  simp [startRound, h]

/-- C8 witness: the empty list against the setup-screen state. -/
theorem startRound_empty_validation_witness :
    startRound id false 0 ([] : List Item) setupState =
      (setupState, some StartError.validationError) :=
  startRound_empty_validation id false 0 [] setupState rfl

/-- C10: advance in Running mode at the boundary (no entry at the current
index) with looping enabled on a non-empty deck resets the index to 0 and
returns: shown, got and pass are untouched, the mode stays Running, and the
triggering action is discarded unscored. -/
theorem advance_boundary_wrap_unscored (a : Action) (s : AppState)
    (hm : s.mode = Mode.running) (hb : s.deck[s.index]? = none)
    (hloop : s.loopWhenFinished = true) (hne : 0 < s.deck.length) :
    (advance a s).index = 0 ∧ (advance a s).shown = s.shown ∧
      (advance a s).got = s.got ∧ (advance a s).pass = s.pass ∧
      (advance a s).mode = Mode.running := by
  simp [advance, hm, hb, hloop, hne]

/- The classification a completed swipe produces, as a single conditional. -/
theorem swipeEnd_snd_eq (x y : ℚ) (now : Nat) (s : AppState)
    (hm : s.mode = Mode.running) (ha : s.swipeActive = true) :
    (swipeEnd x y now s).2 =
      if now - s.swipeStartT ≤ SWIPE_MAX_MS ∧ SWIPE_THRESHOLD_PX ≤ |x - s.swipeStartX| ∧
          |y - s.swipeStartY| ≤ SWIPE_MAX_OFF_AXIS then
        (if 0 < x - s.swipeStartX then some Action.got else some Action.pass)
      else none := by
  rw [swipeEnd]
  rw [if_neg (by simp [ha, hm])]
  dsimp only
  split_ifs <;> rfl

/-- C5: for a completed swipe while the round is Running, with dx, dy against
the recorded start and dt the elapsed time, the classifier emits nothing if
dt exceeds 800ms, or the horizontal travel is under 42px, or the vertical drift
exceeds 80px; otherwise it emits Got for dx positive and Pass for dx negative. -/
theorem swipeEnd_classification (s : AppState) (x y : ℚ) (now : Nat)
    (hm : s.mode = Mode.running) (ha : s.swipeActive = true) (_h0 : s.swipeStartT ≤ now) :
    ((SWIPE_MAX_MS < now - s.swipeStartT ∨ |x - s.swipeStartX| < SWIPE_THRESHOLD_PX ∨
        SWIPE_MAX_OFF_AXIS < |y - s.swipeStartY|) →
      (swipeEnd x y now s).2 = none) ∧
    ((now - s.swipeStartT ≤ SWIPE_MAX_MS ∧ SWIPE_THRESHOLD_PX ≤ |x - s.swipeStartX| ∧
        |y - s.swipeStartY| ≤ SWIPE_MAX_OFF_AXIS) →
      ((0 < x - s.swipeStartX → (swipeEnd x y now s).2 = some Action.got) ∧
       (x - s.swipeStartX < 0 → (swipeEnd x y now s).2 = some Action.pass))) := by
  rw [swipeEnd_snd_eq x y now s hm ha]
  constructor
  · intro h
    have hrej : ¬ (now - s.swipeStartT ≤ SWIPE_MAX_MS ∧
        SWIPE_THRESHOLD_PX ≤ |x - s.swipeStartX| ∧
        |y - s.swipeStartY| ≤ SWIPE_MAX_OFF_AXIS) := by
      rcases h with h | h | h
      · exact fun hc => absurd hc.1 (not_le.mpr h)
      · exact fun hc => absurd hc.2.1 (not_le.mpr h)
      · exact fun hc => absurd hc.2.2 (not_le.mpr h)
    rw [if_neg hrej]
  · intro hacc
    rw [if_pos hacc]
    refine ⟨fun hpos => ?_, fun hneg => ?_⟩
    · rw [if_pos hpos]
    · rw [if_neg (by linarith)]

/-- C5 witness: a 60px rightward, 10px drift, 300ms swipe classifies as Got. -/
theorem swipeEnd_classification_witness :
    (swipeEnd 160 210 1300 swipeActiveState).2 = some Action.got := by
  have h := swipeEnd_classification swipeActiveState 160 210 1300 rfl rfl (by decide)
  exact (h.2 (by norm_num [swipeActiveState, runningState, SWIPE_MAX_MS,
    SWIPE_THRESHOLD_PX, SWIPE_MAX_OFF_AXIS])).1 (by norm_num [swipeActiveState, runningState])

/- What advance does strictly inside the deck (entry present, not the last):
score, step the index, and the captured atEnd check is false. -/
theorem advance_midDeck (a : Action) (s : AppState) (hm : s.mode = Mode.running)
    (hRoom : s.index + 1 < s.deck.length) :
    advance a s = { s with
      shown := s.shown + 1,
      got := if a = Action.got then s.got + 1 else s.got,
      pass := if a = Action.pass then s.pass + 1 else s.pass,
      index := s.index + 1 } := by
  have hidx : s.index < s.deck.length := by omega
  have hsome := List.getElem?_eq_getElem hidx
  have hnoEnd : ¬ (s.deck.length ≤ s.index + 1) := by omega
  simp [advance, hm, hsome, hnoEnd]

/- What advance does on the deck's final entry with looping off: score, step,
and the eager post-increment atEnd check ends the round in the same call. -/
theorem advance_lastItem (a : Action) (s : AppState) (hm : s.mode = Mode.running)
    (hLast : s.index + 1 = s.deck.length) (hloop : s.loopWhenFinished = false) :
    advance a s = endRound "Reached the end of the list" { s with
      shown := s.shown + 1,
      got := if a = Action.got then s.got + 1 else s.got,
      pass := if a = Action.pass then s.pass + 1 else s.pass,
      index := s.index + 1 } := by
  have hidx : s.index < s.deck.length := by omega
  have hsome := List.getElem?_eq_getElem hidx
  have hEnd : s.deck.length ≤ s.index + 1 := by omega
  simp [advance, hm, hsome, hEnd, hloop]

/-- C2 (amended): on a 3-item deck with looping off and fresh counters, three
advance(Got) calls move the index 0, 1, 2, 3; the third call itself detects
index = deck length eagerly after the increment — the final item is shown
(shown = 3) before the termination logic runs — and ends the round, freezing
the snapshot with the reason string "Reached the end of the list" (the source's
exact wording of the claimed reason "reached end of list"). -/
theorem advance_three_items_ends_round (s : AppState)
    (hm : s.mode = Mode.running) (hlen : s.deck.length = 3) (hi : s.index = 0)
    (hsh : s.shown = 0) (hg : s.got = 0) (hp : s.pass = 0)
    (hloop : s.loopWhenFinished = false) :
    ((advance Action.got s).index = 1 ∧
        (advance Action.got s).mode = Mode.running) ∧
      ((advance Action.got (advance Action.got s)).index = 2 ∧
        (advance Action.got (advance Action.got s)).mode = Mode.running) ∧
      ((advance Action.got (advance Action.got (advance Action.got s))).index = 3 ∧
        (advance Action.got (advance Action.got (advance Action.got s))).mode =
          Mode.finished ∧
        (advance Action.got (advance Action.got (advance Action.got s))).shown = 3 ∧
        (advance Action.got (advance Action.got (advance Action.got s))).results =
          some ⟨3, 3, 0, 3, "Reached the end of the list"⟩) := by
  have hs0 := List.getElem?_eq_getElem (show (0 : Nat) < s.deck.length by omega)
  have hs1 := List.getElem?_eq_getElem (show (1 : Nat) < s.deck.length by omega)
  have hs2 := List.getElem?_eq_getElem (show (2 : Nat) < s.deck.length by omega)
  refine ⟨⟨?_, ?_⟩, ⟨?_, ?_⟩, ?_, ?_, ?_, ?_⟩ <;>
    simp [advance, endRound_eq, hm, hlen, hi, hsh, hg, hp, hloop, hs0, hs1, hs2]

/-- C2 counterexample: the reason string frozen in the snapshot when the deck
is exhausted is "Reached the end of the list", not the claimed literal
"reached end of list". -/
theorem advance_three_reason_string :
    (advance Action.got
        (advance Action.got (advance Action.got runningState))).results =
        some ⟨3, 3, 0, 3, "Reached the end of the list"⟩ ∧
      "Reached the end of the list" ≠ "reached end of list" := by
  exact ⟨rfl, by decide⟩

/-- C2 witness for the amended theorem on the concrete 3-item deck. -/
theorem advance_three_items_ends_round_witness :
    (advance Action.got
        (advance Action.got (advance Action.got runningState))).index = 3 ∧
      (advance Action.got
          (advance Action.got (advance Action.got runningState))).mode =
        Mode.finished := by
  have h := advance_three_items_ends_round runningState rfl rfl rfl rfl rfl rfl rfl
  exact ⟨h.2.2.1, h.2.2.2.1⟩

/-- C3 counterexample: from the fresh round state (armed, no baseline yet,
lastActionAt 0), the sample sequence baseline; baseline+25; baseline+0;
baseline+20 (at 1000, 1100, 1200, 1300 ms) emits Got already on the second
sample — the first excursion — and nothing afterwards: the single Got is not
emitted on the third sample of the post-baseline sequence as claimed. -/
theorem tilt_fires_on_first_excursion :
    (runTilt [(1000, 5), (1100, 30)] runningState).2 = [Action.got] ∧
      (runTilt [(1000, 5), (1100, 30), (1200, 5), (1300, 25)] runningState).2 =
        [Action.got] := by
  constructor <;>
    norm_num [runTilt, onDeviceOrientation, calibrateBaseline, advance, TILT,
      runningState, demoDeck]

/-- C3 (amended): for the tilt recognizer at the start of a round (armed, no
baseline, lastActionAt 0) the sample sequence baseline; baseline+25;
baseline+0; baseline+20 emits Got exactly once, but on the first excursion
(the baseline+25 sample, since the recognizer starts armed and the epoch clock
clears the debounce), not on the sample after the return to neutral: that last
sample, arriving within 700ms of the trigger, is debounce-suppressed. -/
theorem tilt_round_start_sequence (s : AppState) (t1 t2 t3 t4 : Nat) (b : ℚ)
    (hEn : s.tiltEnabled = true) (hm : s.mode = Mode.running)
    (hNoBase : s.tiltHasBaseline = false) (hArm : s.tiltArmed = true)
    (hLast : s.tiltLastActionAt = 0)
    (hT2 : TILT.minIntervalMs ≤ t2) (hT4 : t4 - t2 < TILT.minIntervalMs)
    (hRoom : s.index + 1 < s.deck.length) :
    (runTilt [(t1, b), (t2, b + 25)] s).2 = [Action.got] ∧
      (runTilt [(t1, b), (t2, b + 25), (t3, b), (t4, b + 20)] s).2 =
        [Action.got] := by
  have hidx : s.index < s.deck.length := by omega
  have hsome := List.getElem?_eq_getElem hidx
  have hnoEnd : ¬ (s.deck.length ≤ s.index + 1) := by omega
  have hnd2 : ¬ (t2 < 700) := not_lt.mpr hT2
  have hd4 : t4 - t2 < 700 := hT4
  constructor <;>
    norm_num [runTilt, onDeviceOrientation, calibrateBaseline, advance, TILT,
      hEn, hm, hNoBase, hArm, hLast, hnd2, hd4, hsome, hnoEnd]

/-- C3 witness for the amended theorem at concrete times and a baseline of 7. -/
theorem tilt_round_start_sequence_witness :
    (runTilt [(2000, 7), (2100, 7 + 25)] runningState).2 = [Action.got] ∧
      (runTilt [(2000, 7), (2100, 7 + 25), (2200, 7), (2300, 7 + 20)]
          runningState).2 = [Action.got] :=
  tilt_round_start_sequence runningState 2000 2100 2200 2300 7 rfl rfl rfl rfl rfl
    (by decide) (by decide) (by decide)

/-- C6: two qualifying forward excursions (delta at or above +18 while armed,
with an intervening return inside the neutral zone that re-arms the latch)
whose trigger times are less than 700ms apart emit only one action: the second
excursion is suppressed because now - lastActionAt is below the 700ms minimum
interval. -/
theorem tilt_debounce_single_fire (s : AppState) (t1 t2 t3 : Nat) (b1 b2 b3 : ℚ)
    (hEn : s.tiltEnabled = true) (hm : s.mode = Mode.running)
    (hBase : s.tiltHasBaseline = true) (hArm : s.tiltArmed = true)
    (hDeb1 : TILT.minIntervalMs ≤ t1 - s.tiltLastActionAt)
    (hd1 : TILT.forwardTriggerDelta ≤ b1 - s.tiltNeutralBeta)
    (hNeut : |b2 - s.tiltNeutralBeta| ≤ TILT.neutralZoneAbs)
    (hd2 : TILT.forwardTriggerDelta ≤
      b3 - (s.tiltNeutralBeta + (b2 - s.tiltNeutralBeta) * TILT.baselineSmoothing))
    (hDeb2 : t3 - t1 < TILT.minIntervalMs)
    (hRoom : s.index + 1 < s.deck.length) :
    (runTilt [(t1, b1), (t2, b2), (t3, b3)] s).2 = [Action.got] := by
  have hidx : s.index < s.deck.length := by omega
  have hsome := List.getElem?_eq_getElem hidx
  have hnoEnd : ¬ (s.deck.length ≤ s.index + 1) := by omega
  have h18a : (18 : ℚ) ≤ b1 - s.tiltNeutralBeta := hd1
  have hno1 : ¬ (|b1 - s.tiltNeutralBeta| ≤ TILT.neutralZoneAbs + 4) := by
    rw [not_le]
    have hle := le_abs_self (b1 - s.tiltNeutralBeta)
    show (10 : ℚ) + 4 < _
    linarith
  have hdeb1 : ¬ (t1 - s.tiltLastActionAt < TILT.minIntervalMs) := not_lt.mpr hDeb1
  have h10b : |b2 - s.tiltNeutralBeta| ≤ (10 : ℚ) := hNeut
  have hyes2 : |b2 - s.tiltNeutralBeta| ≤ TILT.neutralZoneAbs + 4 := by
    show _ ≤ (10 : ℚ) + 4
    linarith
  have hrearm2 : |b2 - (s.tiltNeutralBeta +
      (b2 - s.tiltNeutralBeta) * TILT.baselineSmoothing)| ≤ TILT.neutralZoneAbs := by
    have heq : b2 - (s.tiltNeutralBeta +
        (b2 - s.tiltNeutralBeta) * TILT.baselineSmoothing) =
        (b2 - s.tiltNeutralBeta) * (22 / 25) := by
      rw [TILT_smoothing]
      ring
    rw [heq, abs_mul]
    show _ ≤ (10 : ℚ)
    rw [show |(22 / 25 : ℚ)| = 22 / 25 from by norm_num]
    linarith
  have h18c : (18 : ℚ) ≤ b3 - (s.tiltNeutralBeta +
      (b2 - s.tiltNeutralBeta) * TILT.baselineSmoothing) := hd2
  have hno3 : ¬ (|b3 - (s.tiltNeutralBeta +
      (b2 - s.tiltNeutralBeta) * TILT.baselineSmoothing)| ≤
        TILT.neutralZoneAbs + 4) := by
    rw [not_le]
    have hle := le_abs_self (b3 - (s.tiltNeutralBeta +
      (b2 - s.tiltNeutralBeta) * TILT.baselineSmoothing))
    show (10 : ℚ) + 4 < _
    linarith
  simp [runTilt, onDeviceOrientation, calibrateBaseline, advance,
    hEn, hm, hBase, hArm, hd1, hno1, hdeb1, hyes2, hrearm2, hno3, hDeb2,
    hsome, hnoEnd]

/-- C6 witness: excursions to 21 and 25 degrees around a baseline of 2, at
1000ms and 1400ms (400ms apart), with a re-arming sample at 6 degrees between
them, fire exactly once. -/
theorem tilt_debounce_single_fire_witness :
    (runTilt [(1000, 21), (1200, 6), (1400, 25)] calibratedState).2 =
      [Action.got] :=
  tilt_debounce_single_fire calibratedState 1000 1200 1400 21 6 25 rfl rfl rfl rfl
    (by decide)
    (by norm_num [calibratedState, runningState, TILT])
    (by norm_num [calibratedState, runningState, TILT])
    (by norm_num [calibratedState, runningState, TILT])
    (by decide) (by decide)

/-- C10 witness: boundary state (index past the 3-item deck) with looping on. -/
theorem advance_boundary_wrap_unscored_witness :
    (advance Action.got wrapState).index = 0 ∧
      (advance Action.got wrapState).shown = 2 ∧
      (advance Action.got wrapState).got = 1 ∧
      (advance Action.got wrapState).pass = 1 ∧
      (advance Action.got wrapState).mode = Mode.running := by
  have h := advance_boundary_wrap_unscored Action.got wrapState rfl rfl rfl (by decide)
  simpa using h

/- startRound on a non-empty parsed list resets the tilt calibration, the
counters and the index, whatever state it is applied to. -/
theorem startRound_resets (shuffle : List Item → List Item)
    (iosNeedsPermission : Bool) (now : Nat) (phrases : List Item) (s : AppState)
    (hne : phrases ≠ []) :
    ((startRound shuffle iosNeedsPermission now phrases s).1.tiltHasBaseline =
        false) ∧
      (startRound shuffle iosNeedsPermission now phrases s).1.tiltArmed = true ∧
      (startRound shuffle iosNeedsPermission now phrases s).1.tiltLastActionAt = 0 ∧
      (startRound shuffle iosNeedsPermission now phrases s).1.shown = 0 ∧
      (startRound shuffle iosNeedsPermission now phrases s).1.got = 0 ∧
      (startRound shuffle iosNeedsPermission now phrases s).1.pass = 0 ∧
      (startRound shuffle iosNeedsPermission now phrases s).1.index = 0 := by
  have hlen : ¬ (phrases.length = 0) := by
    simpa using hne
  refine ⟨?_, ?_, ?_, ?_, ?_, ?_, ?_⟩ <;>
    simp [startRound, hlen, setScreen, startTimer_eq, maybeEnableTilt_proj]

/-- C7: for every non-empty parsed deck and every intervening round activity,
startRound; events; endRound; startRound leaves the tilt calibration fully
reset (hasBaseline false, armed true, lastActionAt 0) and the counters shown,
got, pass at zero with index 0 — no tilt or counter state leaks from the
previous round. -/
theorem startRound_roundtrip_reset (shuffle : List Item → List Item)
    (iosNeedsPermission : Bool) (n1 n2 : Nat) (phrases : List Item) (s : AppState)
    (evs : List Ev) (reason : String) (hne : phrases ≠ []) :
    ((startRound shuffle iosNeedsPermission n2 phrases
        (endRound reason (runEvents evs
          (startRound shuffle iosNeedsPermission n1 phrases s).1))).1.tiltHasBaseline =
        false) ∧
      (startRound shuffle iosNeedsPermission n2 phrases
        (endRound reason (runEvents evs
          (startRound shuffle iosNeedsPermission n1 phrases s).1))).1.tiltArmed =
        true ∧
      (startRound shuffle iosNeedsPermission n2 phrases
        (endRound reason (runEvents evs
          (startRound shuffle iosNeedsPermission n1 phrases s).1))).1.tiltLastActionAt =
        0 ∧
      (startRound shuffle iosNeedsPermission n2 phrases
        (endRound reason (runEvents evs
          (startRound shuffle iosNeedsPermission n1 phrases s).1))).1.shown = 0 ∧
      (startRound shuffle iosNeedsPermission n2 phrases
        (endRound reason (runEvents evs
          (startRound shuffle iosNeedsPermission n1 phrases s).1))).1.got = 0 ∧
      (startRound shuffle iosNeedsPermission n2 phrases
        (endRound reason (runEvents evs
          (startRound shuffle iosNeedsPermission n1 phrases s).1))).1.pass = 0 ∧
      (startRound shuffle iosNeedsPermission n2 phrases
        (endRound reason (runEvents evs
          (startRound shuffle iosNeedsPermission n1 phrases s).1))).1.index = 0 :=
  startRound_resets shuffle iosNeedsPermission n2 phrases
    (endRound reason (runEvents evs
      (startRound shuffle iosNeedsPermission n1 phrases s).1)) hne

/-- C7 witness: the demo deck with a scored advance between the two rounds. -/
theorem startRound_roundtrip_reset_witness :
    ((startRound id false 9 demoDeck
        (endRound "Ended early" (runEvents [Ev.act Action.got]
          (startRound id false 4 demoDeck setupState).1))).1.tiltHasBaseline =
        false) ∧
      (startRound id false 9 demoDeck
        (endRound "Ended early" (runEvents [Ev.act Action.got]
          (startRound id false 4 demoDeck setupState).1))).1.shown = 0 := by
  have h := startRound_roundtrip_reset id false 4 9 demoDeck setupState
    [Ev.act Action.got] "Ended early" (by decide)
  exact ⟨h.1, h.2.2.2.1⟩

/-- C9: every timer tick recomputes the reported time as
timeLeft = max(0, durationSeconds - elapsed wall-clock seconds) from the start
instant, independently of the previously stored timeLeft (never by
decrementing a counter); the tick that reaches 0 ends the round and stops the
timer, so it fires exactly once (a later tick is a no-op); and stopTimer is
idempotent and safe to call when the timer is not running. -/
theorem timer_wallclock_spec (s : AppState) (now : Nat) :
    (s.timerOn = true →
      (((timerTick now s).timeLeft : ℤ) =
        max 0 ((s.timerSeconds : ℤ) -
          (((now - s.timerStartedAt) / 1000 : Nat) : ℤ)))) ∧
    (s.timerOn = true → s.timerSeconds ≤ (now - s.timerStartedAt) / 1000 →
      (timerTick now s).mode = Mode.finished ∧ (timerTick now s).timerOn = false ∧
        ∀ later : Nat, timerTick later (timerTick now s) = timerTick now s) ∧
    stopTimer (stopTimer s) = stopTimer s ∧
    (s.timerOn = false → stopTimer s = s) := by
  refine ⟨?_, ?_, ?_, ?_⟩
  · intro hOn
    have hleft : (timerTick now s).timeLeft =
        s.timerSeconds - (now - s.timerStartedAt) / 1000 := by
      simp [timerTick, hOn, endRound_eq, apply_ite]
    rw [hleft]
    omega
  · intro hOn hExp
    have hzero : s.timerSeconds - (now - s.timerStartedAt) / 1000 = 0 := by omega
    have hmain : timerTick now s = endRound "Time is up" { s with timeLeft := 0 } := by
      simp [timerTick, hOn, hzero]
    rw [hmain, endRound_eq]
    refine ⟨rfl, rfl, fun later => ?_⟩
    simp [timerTick]
  · unfold stopTimer
    split_ifs <;> simp_all
  · intro hOff
    simp [stopTimer, hOff]

/-- C9 witness: a 3-second timer started at instant 0, polled at 5000ms, ends
the round and stops itself. -/
theorem timer_wallclock_spec_witness :
    (timerTick 5000 timedState).mode = Mode.finished ∧
      (timerTick 5000 timedState).timerOn = false := by
  have h := (timer_wallclock_spec timedState 5000).2.1 rfl (by decide)
  exact ⟨h.1, h.2.1⟩

end GuessPhrase
